import Mathlib

/-!
Formal model of the print-job monitoring program (`src/print_monitor.cpp`),
shallowly embedded in Lean 4.  Pure fragments of the C++ source are
translated to Lean functions; the stateful scan-and-insert block of the
poll loop is modelled as explicit state passing over the job store.
-/

set_option maxHeartbeats 1000000

namespace PrintMonitor

/-- The `PrintJob` struct of the source (lines 52-63).  `pages` and
`documentSize` are C++ `int`; we carry them as `Int`. -/
structure PrintJob where
  printerName : String
  timestamp : String
  status : String
  pages : Int := 0
  documentSize : Int := 0
  colorMode : String := ""
  duplexSetting : String := ""
  paperSize : String := ""
  userAccount : String := ""
  jobId : String := ""
deriving DecidableEq

/-- Deduplication identity of a record: the (device name, job identifier)
pair used by the duplicate scan at line 315. -/
def jobKey (j : PrintJob) : String × String :=
  (j.printerName, j.jobId)

/-- The duplicate scan of the mutex-guarded block (lines 313-319):
`existingJob.jobId == job.jobId && existingJob.printerName == job.printerName`
over the current store contents. -/
def existsJob (store : List PrintJob) (job : PrintJob) : Bool :=
  store.any fun e => e.jobId == job.jobId && e.printerName == job.printerName

/-- The scan-and-maybe-insert critical section of the poll loop
(lines 309-329): if the (device, job id) pair is absent, append the record,
then if the size exceeds 1000 erase the first (oldest) 100 elements. -/
def insertIfNovel (store : List PrintJob) (job : PrintJob) : List PrintJob :=
  if existsJob store job then store
  else
    let s := store ++ [job]
    if s.length > 1000 then s.drop 100 else s

/-- Same critical section, additionally counting how many times the
eviction branch (line 326) fires. -/
def insertIfNovelCount (p : List PrintJob × Nat) (job : PrintJob) :
    List PrintJob × Nat :=
  if existsJob p.1 job then p
  else
    let s := p.1 ++ [job]
    if s.length > 1000 then (s.drop 100, p.2 + 1) else (s, p.2)

lemma existsJob_eq_true_iff (store : List PrintJob) (job : PrintJob) :
    existsJob store job = true ↔ jobKey job ∈ store.map jobKey := by
  simp only [existsJob, List.any_eq_true, Bool.and_eq_true, beq_iff_eq,
    List.mem_map, jobKey, Prod.mk.injEq]
  constructor
  · rintro ⟨e, he, h1, h2⟩
    exact ⟨e, he, h2, h1⟩
  · rintro ⟨e, he, h1, h2⟩
    exact ⟨e, he, h2, h1⟩

lemma existsJob_eq_false_iff (store : List PrintJob) (job : PrintJob) :
    existsJob store job = false ↔ jobKey job ∉ store.map jobKey := by
  rw [← Bool.not_eq_true, not_iff_not]
  exact existsJob_eq_true_iff store job

/-- One insertion preserves key distinctness of the store. -/
lemma insertIfNovel_nodup {store : List PrintJob} (job : PrintJob)
    (h : (store.map jobKey).Nodup) :
    ((insertIfNovel store job).map jobKey).Nodup := by
  unfold insertIfNovel
  cases hex : existsJob store job with
  | true => simpa using h
  | false =>
    have hnotin : jobKey job ∉ store.map jobKey :=
      (existsJob_eq_false_iff store job).mp hex
    have happ : ((store ++ [job]).map jobKey).Nodup := by
      rw [List.map_append]
      refine List.Nodup.append h (by simp) ?_
      intro a ha hb
      simp only [List.map_cons, List.map_nil, List.mem_singleton] at hb
      exact hnotin (hb ▸ ha)
    simp only [Bool.false_eq_true, if_false]
    split
    · rw [List.map_drop]
      exact happ.sublist (((store ++ [job]).map jobKey).drop_sublist 100)
    · exact happ

/-- One insertion keeps the size bound: if the store held at most 1000
records before, it holds at most 1000 after. -/
lemma insertIfNovel_length_le {store : List PrintJob} (job : PrintJob)
    (h : store.length ≤ 1000) :
    (insertIfNovel store job).length ≤ 1000 := by
  unfold insertIfNovel
  split
  · exact h
  · show (if (store ++ [job]).length > 1000 then (store ++ [job]).drop 100
      else store ++ [job]).length ≤ 1000
    split
    · simp only [List.length_drop, List.length_append, List.length_singleton]
      omega
    · rename_i hlen
      simp only [List.length_append, List.length_singleton, not_lt] at hlen ⊢
      omega

lemma foldl_insertIfNovel_nodup (jobs : List PrintJob) :
    ∀ store : List PrintJob, (store.map jobKey).Nodup →
      ((List.foldl insertIfNovel store jobs).map jobKey).Nodup := by
  induction jobs with
  | nil => intro store h; simpa using h
  | cons job rest ih =>
    intro store h
    exact ih (insertIfNovel store job) (insertIfNovel_nodup job h)

lemma foldl_insertIfNovel_length (jobs : List PrintJob) :
    ∀ store : List PrintJob, store.length ≤ 1000 →
      (List.foldl insertIfNovel store jobs).length ≤ 1000 := by
  induction jobs with
  | nil => intro store h; simpa using h
  | cons job rest ih =>
    intro store h
    exact ih (insertIfNovel store job) (insertIfNovel_length_le job h)

/-- A concrete record used to instantiate theorems with hypotheses. -/
def sampleJob : PrintJob :=
  { printerName := "HP LaserJet", timestamp := "2026-01-01T00:00:00.000+00:00",
    status := "Queued", pages := 3, documentSize := 1024,
    colorMode := "Color", duplexSetting := "Simplex", paperSize := "A4",
    userAccount := "alice", jobId := "42" }

/-- C1: starting from the empty store, every sequence of `insert_if_novel`
calls leaves the store free of records with equal (device name, job id)
pairs, and an insert whose pair already exists leaves the store unchanged. -/
theorem store_never_holds_duplicate_keys :
    (∀ jobs : List PrintJob,
      ((List.foldl insertIfNovel [] jobs).map jobKey).Nodup) ∧
    (∀ (store : List PrintJob) (job : PrintJob),
      existsJob store job = true → insertIfNovel store job = store) := by
  constructor
  · intro jobs
    exact foldl_insertIfNovel_nodup jobs [] (by simp)
  · intro store job h
    unfold insertIfNovel
    simp [h]

/-- Witness for C1 at a concrete store and record. -/
theorem store_never_holds_duplicate_keys_witness :
    existsJob [sampleJob] sampleJob = true ∧
      insertIfNovel [sampleJob] sampleJob = [sampleJob] :=
  ⟨by decide, store_never_holds_duplicate_keys.2 [sampleJob] sampleJob (by decide)⟩

/-- C2: starting from the empty store, the store size never exceeds 1000
immediately after any `insert_if_novel` call returns. -/
theorem store_size_never_exceeds_bound :
    ∀ jobs : List PrintJob, (List.foldl insertIfNovel [] jobs).length ≤ 1000 :=
  fun jobs => foldl_insertIfNovel_length jobs [] (by simp)

/-- A run of novel, key-distinct inserts that stays within the 1000 bound
appends the records in order and fires no eviction. -/
lemma foldl_insertIfNovelCount_fresh (news : List PrintJob) :
    ∀ (store : List PrintJob) (n : Nat),
      (news.map jobKey).Nodup →
      (∀ j ∈ news, jobKey j ∉ store.map jobKey) →
      store.length + news.length ≤ 1000 →
      List.foldl insertIfNovelCount (store, n) news = (store ++ news, n) := by
  induction news with
  | nil => intro store n _ _ _; simp
  | cons job rest ih =>
    intro store n hnodup hfresh hlen
    have hex : existsJob store job = false :=
      (existsJob_eq_false_iff store job).mpr (hfresh job (by simp))
    have hnodup' : (jobKey job :: rest.map jobKey).Nodup := by
      simpa using hnodup
    have hstep : insertIfNovelCount (store, n) job = (store ++ [job], n) := by
      unfold insertIfNovelCount
      simp only [hex, Bool.false_eq_true, if_false]
      show (if (store ++ [job]).length > 1000
        then ((store ++ [job]).drop 100, n + 1) else (store ++ [job], n)) =
          (store ++ [job], n)
      rw [if_neg]
      simp only [List.length_append, List.length_singleton, gt_iff_lt, not_lt]
      simp only [List.length_cons] at hlen
      omega
    rw [List.foldl_cons, hstep,
      ih (store ++ [job]) n (List.nodup_cons.mp hnodup').2 ?_ ?_]
    · simp
    · intro j hj
      rw [List.map_append, List.mem_append]
      rintro (hin | hin)
      · exact hfresh j (List.mem_cons_of_mem job hj) hin
      · simp only [List.map_cons, List.map_nil, List.mem_singleton] at hin
        exact (List.nodup_cons.mp hnodup').1 (hin ▸ List.mem_map_of_mem jobKey hj)
    · simp only [List.length_append, List.length_singleton]
      simp only [List.length_cons] at hlen
      omega

/-- C3: a store of 900 records receiving 150 inserts that are novel and
pairwise key-distinct ends holding exactly the last 800 original records
followed by the 150 new ones, in order; the eviction branch fires exactly
once and the final size is 950. -/
theorem eviction_fires_once_at_threshold
    (init news : List PrintJob)
    (hinit : init.length = 900)
    (hnews : news.length = 150)
    (hnodup : (news.map jobKey).Nodup)
    (hfresh : ∀ j ∈ news, jobKey j ∉ init.map jobKey) :
    List.foldl insertIfNovelCount (init, 0) news = (init.drop 100 ++ news, 1) ∧
      (init.drop 100 ++ news).length = 950 := by
  have hsplit : news = news.take 100 ++ news.drop 100 :=
    (List.take_append_drop 100 news).symm
  have hta : (news.take 100).length = 100 := by
    rw [List.length_take, hnews]
    exact min_eq_left (by norm_num)
  have htd : (news.drop 100).length = 50 := by
    rw [List.length_drop, hnews]
  obtain ⟨b, c, hbc⟩ : ∃ b c, news.drop 100 = b :: c := by
    cases hd : news.drop 100 with
    | nil => rw [hd] at htd; simp at htd
    | cons b c => exact ⟨b, c, rfl⟩
  set a : List PrintJob := news.take 100 with ha_def
  have hnews_eq : news = a ++ b :: c := by rw [hsplit, hbc]
  have hc_len : c.length = 49 := by
    have := htd
    rw [hbc] at this
    simpa using this
  -- Key bookkeeping derived from `hnodup` and `hfresh` over the split.
  have hkeys : (a.map jobKey ++ jobKey b :: c.map jobKey).Nodup := by
    have := hnodup
    rw [hnews_eq, List.map_append, List.map_cons] at this
    exact this
  have hdisj : (a.map jobKey).Disjoint (jobKey b :: c.map jobKey) :=
    (List.nodup_append.mp hkeys).2.2
  have hbc_nodup : (jobKey b :: c.map jobKey).Nodup :=
    (List.nodup_append.mp hkeys).2.1
  have ha_sub : ∀ j ∈ a, j ∈ news := fun j hj => List.take_subset 100 news hj
  have hbn : b ∈ news := by rw [hnews_eq]; simp
  have hcn : ∀ j ∈ c, j ∈ news := by
    intro j hj; rw [hnews_eq]; simp [hj]
  -- Phase 1: the first 100 inserts append without eviction (size 900 → 1000).
  have hphase1 : List.foldl insertIfNovelCount (init, 0) a = (init ++ a, 0) := by
    refine foldl_insertIfNovelCount_fresh a init 0 ?_ ?_ ?_
    · exact (List.nodup_append.mp hkeys).1
    · intro j hj; exact hfresh j (ha_sub j hj)
    · rw [hinit, hta]
  -- Phase 2: the 101st insert makes the size 1001 and evicts the oldest 100.
  have hbfresh : existsJob (init ++ a) b = false := by
    refine (existsJob_eq_false_iff _ b).mpr ?_
    rw [List.map_append, List.mem_append]
    rintro (hin | hin)
    · exact hfresh b hbn hin
    · exact hdisj hin (List.mem_cons_self _ _)
  have hlen_full : (init ++ a ++ [b]).length = 1001 := by
    simp only [List.length_append, List.length_singleton, hinit, hta]
  have hphase2 : insertIfNovelCount (init ++ a, 0) b =
      (init.drop 100 ++ (a ++ [b]), 1) := by
    unfold insertIfNovelCount
    simp only [hbfresh, Bool.false_eq_true, if_false]
    show (if (init ++ a ++ [b]).length > 1000
      then ((init ++ a ++ [b]).drop 100, 0 + 1) else (init ++ a ++ [b], 0)) =
        (init.drop 100 ++ (a ++ [b]), 1)
    rw [if_pos (by omega : (init ++ a ++ [b]).length > 1000)]
    rw [List.append_assoc, List.drop_append_eq_append_drop]
    rw [hinit]
    norm_num
  -- Phase 3: the remaining 49 inserts append without further eviction.
  have hlen_evicted : (init.drop 100 ++ (a ++ [b])).length = 901 := by
    simp only [List.length_append, List.length_drop, List.length_singleton,
      hinit, hta]
  have hphase3 : List.foldl insertIfNovelCount (init.drop 100 ++ (a ++ [b]), 1) c =
      (init.drop 100 ++ (a ++ [b]) ++ c, 1) := by
    refine foldl_insertIfNovelCount_fresh c _ 1 (List.nodup_cons.mp hbc_nodup).2 ?_ ?_
    · intro j hj
      rw [List.map_append, List.mem_append, List.map_append, List.mem_append]
      have hjkey : jobKey j ∈ c.map jobKey := List.mem_map_of_mem jobKey hj
      rintro (hin | hin | hin)
      · have hin2 : jobKey j ∈ init.map jobKey := by
          rw [List.map_drop] at hin
          exact List.drop_subset 100 (init.map jobKey) hin
        exact hfresh j (hcn j hj) hin2
      · exact hdisj hin (List.mem_cons_of_mem _ hjkey)
      · simp only [List.map_cons, List.map_nil, List.mem_singleton] at hin
        exact (List.nodup_cons.mp hbc_nodup).1 (hin ▸ hjkey)
    · rw [hlen_evicted, hc_len]; omega
  -- Assemble the three phases.
  constructor
  · rw [hnews_eq, List.foldl_append, hphase1, List.foldl_cons, hphase2, hphase3]
    simp only [List.append_assoc, List.singleton_append]
  · simp only [List.length_append, List.length_drop, hinit, hnews]

/-- A record family with pairwise-distinct job identifiers on one device. -/
def uniqueJob (device : String) (n : Nat) : PrintJob :=
  { printerName := device, timestamp := "2026-01-01T00:00:00.000+00:00",
    status := "Queued", jobId := String.mk (List.replicate n 'j') }

/-- Concrete 900-record store used to instantiate the eviction theorem. -/
def initStore900 : List PrintJob := (List.range 900).map (uniqueJob "DeviceA")

/-- Concrete 150 novel records used to instantiate the eviction theorem. -/
def newJobs150 : List PrintJob := (List.range 150).map (uniqueJob "DeviceB")

lemma jobKey_uniqueJob (device : String) (n : Nat) :
    jobKey (uniqueJob device n) = (device, String.mk (List.replicate n 'j')) := rfl

lemma uniqueJob_key_injective (device : String) :
    Function.Injective (fun n => jobKey (uniqueJob device n)) := by
  intro m n h
  have h2 : String.mk (List.replicate m 'j') = String.mk (List.replicate n 'j') :=
    congrArg Prod.snd h
  have h3 : List.replicate m 'j' = List.replicate n 'j' :=
    congrArg String.data h2
  have := congrArg List.length h3
  simpa using this

lemma newJobs150_keys_nodup : (newJobs150.map jobKey).Nodup := by
  rw [newJobs150, List.map_map]
  exact (List.nodup_range 150).map (uniqueJob_key_injective "DeviceB")

lemma newJobs150_fresh :
    ∀ j ∈ newJobs150, jobKey j ∉ initStore900.map jobKey := by
  intro j hj hmem
  rw [newJobs150, List.mem_map] at hj
  obtain ⟨n, _, rfl⟩ := hj
  rw [initStore900, List.map_map, List.mem_map] at hmem
  obtain ⟨m, _, hkey⟩ := hmem
  have : "DeviceA" = "DeviceB" := congrArg Prod.fst hkey
  exact absurd this (by decide)

/-- Witness for C3 at the concrete 900-record store and 150 novel records. -/
theorem eviction_fires_once_at_threshold_witness :
    initStore900.length = 900 ∧ newJobs150.length = 150 ∧
      List.foldl insertIfNovelCount (initStore900, 0) newJobs150 =
        (initStore900.drop 100 ++ newJobs150, 1) ∧
      (initStore900.drop 100 ++ newJobs150).length = 950 := by
  have h1 : initStore900.length = 900 := by
    rw [initStore900, List.length_map, List.length_range]
  have h2 : newJobs150.length = 150 := by
    rw [newJobs150, List.length_map, List.length_range]
  have hmain := eviction_fires_once_at_threshold initStore900 newJobs150
    h1 h2 newJobs150_keys_nodup newJobs150_fresh
  exact ⟨h1, h2, hmain.1, hmain.2⟩

/-! Status-bitmask mapping (lines 272-293).  The `JOB_STATUS_*` values are
the Windows spooler flag constants from `winspool.h`. -/

def JOB_STATUS_PAUSED : Nat := 0x1
def JOB_STATUS_ERROR : Nat := 0x2
def JOB_STATUS_DELETING : Nat := 0x4
def JOB_STATUS_SPOOLING : Nat := 0x8
def JOB_STATUS_PRINTING : Nat := 0x10
def JOB_STATUS_OFFLINE : Nat := 0x20
def JOB_STATUS_PAPEROUT : Nat := 0x40
def JOB_STATUS_DELETED : Nat := 0x100
def JOB_STATUS_BLOCKED_DEVQ : Nat := 0x200
def JOB_STATUS_USER_INTERVENTION : Nat := 0x400

/-- The if/else-if chain mapping a job status bitmask to a status string
(lines 272-293 of the source). -/
def mapJobStatus (s : Nat) : String :=
  if s &&& JOB_STATUS_PAUSED ≠ 0 then "Paused"
  else if s &&& JOB_STATUS_ERROR ≠ 0 then "Error"
  else if s &&& JOB_STATUS_DELETING ≠ 0 then "Deleting"
  else if s &&& JOB_STATUS_SPOOLING ≠ 0 then "Spooling"
  else if s &&& JOB_STATUS_PRINTING ≠ 0 then "Printing"
  else if s &&& JOB_STATUS_OFFLINE ≠ 0 then "Offline"
  else if s &&& JOB_STATUS_PAPEROUT ≠ 0 then "Paper Out"
  else if s &&& JOB_STATUS_DELETED ≠ 0 then "Deleted"
  else if s &&& JOB_STATUS_BLOCKED_DEVQ ≠ 0 then "Blocked"
  else if s &&& JOB_STATUS_USER_INTERVENTION ≠ 0 then "User Intervention Required"
  else "Queued"

/-- The fixed precedence order of recognized status flags, as the spec
states it: Paused, Error, Deleting, Spooling, Printing, Offline, PaperOut,
Deleted, Blocked, UserInterventionRequired. -/
def statusPrecedence : List (Nat × String) :=
  [(JOB_STATUS_PAUSED, "Paused"), (JOB_STATUS_ERROR, "Error"),
   (JOB_STATUS_DELETING, "Deleting"), (JOB_STATUS_SPOOLING, "Spooling"),
   (JOB_STATUS_PRINTING, "Printing"), (JOB_STATUS_OFFLINE, "Offline"),
   (JOB_STATUS_PAPEROUT, "Paper Out"), (JOB_STATUS_DELETED, "Deleted"),
   (JOB_STATUS_BLOCKED_DEVQ, "Blocked"),
   (JOB_STATUS_USER_INTERVENTION, "User Intervention Required")]

/-- Modelled from the spec's words, for refinement comparison with
`mapJobStatus`: scan the precedence list, first matching flag wins, only
one status is ever assigned, default "Queued". -/
def firstMatchStatus (s : Nat) : List (Nat × String) → String
  | [] => "Queued"
  | p :: rest => if s &&& p.1 ≠ 0 then p.2 else firstMatchStatus s rest

/-- Spec-side status mapping over the full precedence list. -/
def specStatusFirstMatch (s : Nat) : String :=
  firstMatchStatus s statusPrecedence

/-- C4: the status mapping agrees with first-match scanning of the fixed
precedence list; a bitmask with both the Paused and Printing bits set maps
to "Paused"; a bitmask with none of the recognized bits maps to "Queued". -/
theorem job_status_precedence_mapping :
    (∀ s : Nat, mapJobStatus s = specStatusFirstMatch s) ∧
    mapJobStatus (JOB_STATUS_PAUSED ||| JOB_STATUS_PRINTING) = "Paused" ∧
    (∀ s : Nat, (∀ p ∈ statusPrecedence, s &&& p.1 = 0) →
      mapJobStatus s = "Queued") := by
  refine ⟨fun s => rfl, by decide, fun s h => ?_⟩
  have h1 : s &&& JOB_STATUS_PAUSED = 0 :=
    h (JOB_STATUS_PAUSED, "Paused") (by decide)
  have h2 : s &&& JOB_STATUS_ERROR = 0 :=
    h (JOB_STATUS_ERROR, "Error") (by decide)
  have h3 : s &&& JOB_STATUS_DELETING = 0 :=
    h (JOB_STATUS_DELETING, "Deleting") (by decide)
  have h4 : s &&& JOB_STATUS_SPOOLING = 0 :=
    h (JOB_STATUS_SPOOLING, "Spooling") (by decide)
  have h5 : s &&& JOB_STATUS_PRINTING = 0 :=
    h (JOB_STATUS_PRINTING, "Printing") (by decide)
  have h6 : s &&& JOB_STATUS_OFFLINE = 0 :=
    h (JOB_STATUS_OFFLINE, "Offline") (by decide)
  have h7 : s &&& JOB_STATUS_PAPEROUT = 0 :=
    h (JOB_STATUS_PAPEROUT, "Paper Out") (by decide)
  have h8 : s &&& JOB_STATUS_DELETED = 0 :=
    h (JOB_STATUS_DELETED, "Deleted") (by decide)
  have h9 : s &&& JOB_STATUS_BLOCKED_DEVQ = 0 :=
    h (JOB_STATUS_BLOCKED_DEVQ, "Blocked") (by decide)
  have h10 : s &&& JOB_STATUS_USER_INTERVENTION = 0 :=
    h (JOB_STATUS_USER_INTERVENTION, "User Intervention Required") (by decide)
  simp [mapJobStatus, h1, h2, h3, h4, h5, h6, h7, h8, h9, h10]

/-- Witness for C4 at the bitmask 0x880 (only unrecognized bits set). -/
theorem job_status_precedence_mapping_witness :
    mapJobStatus 2176 = "Queued" :=
  job_status_precedence_mapping.2.2 2176 (by decide)

/-! Device-settings decoding (lines 133-172).  The `DEVMODE` structure is
modelled by its four fields the source inspects; an absent (null) blob is
`none`.  The `DM_*` and `DMPAPER_*`/`DMDUP_*`/`DMCOLOR_*` values are the
Windows constants from `wingdi.h`. -/

structure DevMode where
  dmFields : Nat
  dmColor : Nat
  dmDuplex : Nat
  dmPaperSize : Nat
deriving DecidableEq

def DM_PAPERSIZE : Nat := 0x2
def DM_COLOR : Nat := 0x800
def DM_DUPLEX : Nat := 0x1000
def DMCOLOR_COLOR : Nat := 2
def DMDUP_SIMPLEX : Nat := 1
def DMDUP_VERTICAL : Nat := 2
def DMDUP_HORIZONTAL : Nat := 3
def DMPAPER_LETTER : Nat := 1
def DMPAPER_LEGAL : Nat := 5
def DMPAPER_A3 : Nat := 8
def DMPAPER_A4 : Nat := 9
def DMPAPER_A5 : Nat := 11

/-- `getColorMode` (lines 133-140). -/
def getColorMode : Option DevMode → String
  | none => "Unknown"
  | some d =>
    if d.dmFields &&& DM_COLOR ≠ 0 then
      if d.dmColor = DMCOLOR_COLOR then "Color" else "Monochrome"
    else "Unknown"

/-- `getDuplexSetting` (lines 143-155). -/
def getDuplexSetting : Option DevMode → String
  | none => "Unknown"
  | some d =>
    if d.dmFields &&& DM_DUPLEX ≠ 0 then
      if d.dmDuplex = DMDUP_SIMPLEX then "Simplex"
      else if d.dmDuplex = DMDUP_VERTICAL then "Duplex Vertical"
      else if d.dmDuplex = DMDUP_HORIZONTAL then "Duplex Horizontal"
      else "Unknown"
    else "Unknown"

/-- `getPaperSize` (lines 158-172). -/
def getPaperSize : Option DevMode → String
  | none => "Unknown"
  | some d =>
    if d.dmFields &&& DM_PAPERSIZE ≠ 0 then
      if d.dmPaperSize = DMPAPER_LETTER then "Letter"
      else if d.dmPaperSize = DMPAPER_LEGAL then "Legal"
      else if d.dmPaperSize = DMPAPER_A4 then "A4"
      else if d.dmPaperSize = DMPAPER_A3 then "A3"
      else if d.dmPaperSize = DMPAPER_A5 then "A5"
      else "Custom"
    else "Unknown"

/-- C5: an absent configuration blob yields "Unknown" for all three
fields; an unset capability flag yields "Unknown" for that field
regardless of the underlying value; a set paper-size flag with an
unrecognized code yields "Custom", not "Unknown". -/
theorem device_settings_decoder :
    (getColorMode none = "Unknown" ∧ getDuplexSetting none = "Unknown" ∧
      getPaperSize none = "Unknown") ∧
    (∀ d : DevMode, d.dmFields &&& DM_COLOR = 0 →
      getColorMode (some d) = "Unknown") ∧
    (∀ d : DevMode, d.dmFields &&& DM_DUPLEX = 0 →
      getDuplexSetting (some d) = "Unknown") ∧
    (∀ d : DevMode, d.dmFields &&& DM_PAPERSIZE = 0 →
      getPaperSize (some d) = "Unknown") ∧
    (∀ d : DevMode, d.dmFields &&& DM_PAPERSIZE ≠ 0 →
      d.dmPaperSize ≠ DMPAPER_LETTER → d.dmPaperSize ≠ DMPAPER_LEGAL →
      d.dmPaperSize ≠ DMPAPER_A4 → d.dmPaperSize ≠ DMPAPER_A3 →
      d.dmPaperSize ≠ DMPAPER_A5 → getPaperSize (some d) = "Custom") := by
  refine ⟨⟨rfl, rfl, rfl⟩, ?_, ?_, ?_, ?_⟩
  · intro d h; simp [getColorMode, h]
  · intro d h; simp [getDuplexSetting, h]
  · intro d h; simp [getPaperSize, h]
  · intro d h h1 h2 h3 h4 h5
    simp [getPaperSize, h, h1, h2, h3, h4, h5]

/-- Witness for C5 at a blob with no capability flags set and a blob with
an unrecognized paper-size code. -/
theorem device_settings_decoder_witness :
    getColorMode (some ⟨0, 2, 1, 9⟩) = "Unknown" ∧
    getDuplexSetting (some ⟨0, 2, 1, 9⟩) = "Unknown" ∧
    getPaperSize (some ⟨0, 2, 1, 9⟩) = "Unknown" ∧
    getPaperSize (some ⟨2, 0, 0, 999⟩) = "Custom" :=
  ⟨device_settings_decoder.2.1 ⟨0, 2, 1, 9⟩ (by decide),
   device_settings_decoder.2.2.1 ⟨0, 2, 1, 9⟩ (by decide),
   device_settings_decoder.2.2.2.1 ⟨0, 2, 1, 9⟩ (by decide),
   device_settings_decoder.2.2.2.2 ⟨2, 0, 0, 999⟩ (by decide) (by decide)
     (by decide) (by decide) (by decide) (by decide)⟩

/-! Per-job logging (lines 309-335).  The mutex-guarded block scans and
maybe inserts; the info-level log call that follows it (line 331) is
guarded only by the running flag, not by the outcome of the novelty
check. -/

/-- Tail of the per-job loop body (lines 309-335): the scan-and-maybe-
insert critical section, followed by the log decision.  Returns the new
store, whether the record was newly inserted, and whether an info-level
log entry is emitted. -/
def processJobTail (store : List PrintJob) (job : PrintJob)
    (running : Bool) : List PrintJob × Bool × Bool :=
  (insertIfNovel store job, !(existsJob store job), running)

/-- C6 counterexample: a job whose (device, job id) pair is already in
the store is not newly inserted (the store is unchanged), yet the code
still emits the info-level log entry. -/
theorem duplicate_job_logged_again :
    (processJobTail [sampleJob] sampleJob true).2.2 = true ∧
    (processJobTail [sampleJob] sampleJob true).2.1 = false ∧
    (processJobTail [sampleJob] sampleJob true).1 = [sampleJob] := by
  decide

/-- C6 amended: during a poll cycle an info-level log entry is emitted
for a job exactly when the running flag is still true at the log point,
regardless of whether the record was newly inserted. -/
theorem job_logged_iff_running :
    ∀ (store : List PrintJob) (job : PrintJob) (running : Bool),
      (processJobTail store job running).2.2 = running :=
  fun _ _ _ => rfl

/-! Locking discipline of the export path (lines 391-478).  `exportToCSV`
declares `std::lock_guard<std::mutex> lock(jobsMutex)` on entry and then
performs every file operation before the guard is destroyed at return. -/

inductive ExportEvent where
  | acquireLock
  | releaseLock
  | fileOpen
  | fileWrite
  | fileClose
  | logLine
deriving DecidableEq

def isFileIO : ExportEvent → Bool
  | ExportEvent.fileOpen => true
  | ExportEvent.fileWrite => true
  | ExportEvent.fileClose => true
  | _ => false

/-- Event trace of `exportToCSV` on its success path: acquire the store
mutex, open the file, write the header, write one row per record, close
the file, log completion, release the mutex on return. -/
def exportToCSVTrace (store : List PrintJob) : List ExportEvent :=
  [ExportEvent.acquireLock, ExportEvent.fileOpen, ExportEvent.fileWrite] ++
    store.map (fun _ => ExportEvent.fileWrite) ++
    [ExportEvent.fileClose, ExportEvent.logLine, ExportEvent.releaseLock]

/-- Whether some file I/O event occurs while the lock is held, scanning
the trace with the current lock state. -/
def ioUnderLock : List ExportEvent → Bool → Bool
  | [], _ => false
  | e :: rest, held =>
    match e with
    | ExportEvent.acquireLock => ioUnderLock rest true
    | ExportEvent.releaseLock => ioUnderLock rest false
    | _ => (held && isFileIO e) || ioUnderLock rest held

/-- C7 counterexample: already on the empty store, the export path
performs file I/O while holding the store's exclusive lock. -/
theorem export_io_under_lock_on_empty_store :
    ioUnderLock (exportToCSVTrace []) false = true := by
  decide

/-- C7 amended: for every store, the export operation acquires the
store's exclusive lock and performs its file I/O while the lock is held;
no point-in-time copy is taken before the I/O. -/
theorem export_always_does_io_under_lock :
    ∀ store : List PrintJob, ioUnderLock (exportToCSVTrace store) false = true :=
  fun _ => rfl

/-! Numeric normalization (lines 295-296).  `TotalPages`, `PagesPrinted`
and `Size` are unsigned 32-bit spooler values; `pages` and `documentSize`
are C++ `int` fields, so the assignment wraps values at 2^31. -/

/-- Conversion of an unsigned 32-bit value to a C++ `int`
(two's-complement wrap), as performed by `static_cast<int>` at line 296
and the implicit conversion at line 295. -/
def toInt32 (n : Nat) : Int :=
  if n % 4294967296 < 2147483648 then ((n % 4294967296 : Nat) : Int)
  else ((n % 4294967296 : Nat) : Int) - 4294967296

/-- Page-count normalization (line 295):
`TotalPages > 0 ? TotalPages : PagesPrinted`, stored in the `int` field. -/
def normalizePages (totalPages pagesPrinted : Nat) : Int :=
  toInt32 (if totalPages > 0 then totalPages else pagesPrinted)

/-- Document-size normalization (line 296): `static_cast<int>(Size)`. -/
def normalizeDocumentSize (size : Nat) : Int :=
  toInt32 size

/-- C9 counterexample: a spooler-reported byte size of 2^31 (a document
just over 2 GiB) makes the normalized `documentSize` field negative. -/
theorem document_size_negative_at_two_gib :
    normalizeDocumentSize 2147483648 = -2147483648 ∧
    normalizeDocumentSize 2147483648 < 0 := by
  decide

lemma toInt32_of_lt {n : Nat} (h : n < 2147483648) : toInt32 n = (n : Int) := by
  unfold toInt32
  rw [Nat.mod_eq_of_lt (by omega)]
  rw [if_pos h]

/-- C9 amended: whenever the raw spooler values are below 2^31, the
normalized page count and document size are non-negative; page count is
the total-pages value when positive and otherwise the pages-printed
value; document size is the reported byte size.  For raw values at or
above 2^31 the `int` fields wrap negative. -/
theorem page_and_size_fields_nonneg
    (totalPages pagesPrinted size : Nat)
    (h1 : totalPages < 2147483648) (h2 : pagesPrinted < 2147483648)
    (h3 : size < 2147483648) :
    0 ≤ normalizePages totalPages pagesPrinted ∧
    0 ≤ normalizeDocumentSize size ∧
    (0 < totalPages → normalizePages totalPages pagesPrinted = totalPages) ∧
    (totalPages = 0 → normalizePages totalPages pagesPrinted = pagesPrinted) ∧
    normalizeDocumentSize size = size := by
  refine ⟨?_, ?_, ?_, ?_, ?_⟩
  · unfold normalizePages
    split
    · rw [toInt32_of_lt h1]; omega
    · rw [toInt32_of_lt h2]; omega
  · unfold normalizeDocumentSize
    rw [toInt32_of_lt h3]; omega
  · intro hp
    unfold normalizePages
    rw [if_pos hp, toInt32_of_lt h1]
  · intro hp
    unfold normalizePages
    rw [hp, if_neg (by omega), toInt32_of_lt h2]
  · unfold normalizeDocumentSize
    rw [toInt32_of_lt h3]

/-- Witness for amended C9 at concrete spooler values. -/
theorem page_and_size_fields_nonneg_witness :
    0 ≤ normalizePages 0 7 ∧ normalizeDocumentSize 5000 = 5000 :=
  ⟨(page_and_size_fields_nonneg 0 7 5000 (by decide) (by decide) (by decide)).1,
   (page_and_size_fields_nonneg 0 7 5000 (by decide) (by decide)
     (by decide)).2.2.2.2⟩

/-! Record construction in the poll loop (lines 267-307).  The device-
setting fields are assigned only under `if (pJobInfo[j].pDevMode)`;
with a null blob they keep the default-constructed empty string. -/

/-- Construction of one `PrintJob` in the poll loop body: fields filled
from the enumerated job, the three device-setting fields assigned only
when the per-job `pDevMode` blob is present. -/
def buildJob (printerName timestamp : String) (statusBits : Nat)
    (totalPages pagesPrinted size : Nat) (userAccount jobId : String)
    (devMode : Option DevMode) : PrintJob :=
  let job : PrintJob :=
    { printerName := printerName, timestamp := timestamp,
      status := mapJobStatus statusBits,
      pages := normalizePages totalPages pagesPrinted,
      documentSize := normalizeDocumentSize size,
      userAccount := userAccount, jobId := jobId }
  match devMode with
  | none => job
  | some d =>
    { job with
        colorMode := getColorMode (some d)
        duplexSetting := getDuplexSetting (some d)
        paperSize := getPaperSize (some d) }

/-- C10: with a null per-job configuration blob the decoder functions are
bypassed and the three device-setting fields stay the empty string, which
differs from the decoders' "Unknown". -/
theorem null_devmode_leaves_fields_empty :
    ∀ (pn ts : String) (sb tp pp sz : Nat) (ua ji : String),
      (buildJob pn ts sb tp pp sz ua ji none).colorMode = "" ∧
      (buildJob pn ts sb tp pp sz ua ji none).duplexSetting = "" ∧
      (buildJob pn ts sb tp pp sz ua ji none).paperSize = "" ∧
      (buildJob pn ts sb tp pp sz ua ji none).colorMode ≠ "Unknown" ∧
      (buildJob pn ts sb tp pp sz ua ji none).duplexSetting ≠ "Unknown" ∧
      (buildJob pn ts sb tp pp sz ua ji none).paperSize ≠ "Unknown" := by
  intro pn ts sb tp pp sz ua ji
  refine ⟨rfl, rfl, rfl, ?_, ?_, ?_⟩
  · show ("" : String) ≠ "Unknown"
    decide
  · show ("" : String) ≠ "Unknown"
    decide
  · show ("" : String) ≠ "Unknown"
    decide

/-- Witness for C10 at a concrete enumerated job with a null blob. -/
theorem null_devmode_leaves_fields_empty_witness :
    (buildJob "HP" "2026-01-01" 0 1 0 10 "bob" "9" none).colorMode = "" ∧
    (buildJob "HP" "2026-01-01" 0 1 0 10 "bob" "9" none).duplexSetting = "" ∧
    (buildJob "HP" "2026-01-01" 0 1 0 10 "bob" "9" none).paperSize = "" ∧
    (buildJob "HP" "2026-01-01" 0 1 0 10 "bob" "9" none).colorMode ≠ "Unknown" ∧
    (buildJob "HP" "2026-01-01" 0 1 0 10 "bob" "9" none).duplexSetting ≠ "Unknown" ∧
    (buildJob "HP" "2026-01-01" 0 1 0 10 "bob" "9" none).paperSize ≠ "Unknown" :=
  null_devmode_leaves_fields_empty "HP" "2026-01-01" 0 1 0 10 "bob" "9"

/-! The periodic-export loop (lines 481-495) over a running-flag
timeline.  `flag t` is the value the `monitoringActive` flag holds at
tick `t` (one tick per one-second sleep).  The thread running this loop
is spawned in `main` (line 619) before monitoring can be started, so its
first observation happens at process start, when the flag is false. -/

/-- The inner sleep loop of `periodicSave` (line 484): up to 1800
one-second sleeps, re-checking the running flag before each; returns the
tick at which the loop exits. -/
def sleepLoop (flag : Nat → Bool) : Nat → Nat → Nat
  | 0, t => t
  | i + 1, t => if flag t then sleepLoop flag i (t + 1) else t

/-- The `periodicSave` loop: at the loop top the flag is read; on
observing false the thread exits permanently.  Otherwise it sleeps up to
1800 ticks and, if the flag is still true, triggers an export.  `fuel`
bounds the number of outer iterations modelled; the result lists the
ticks at which an automatic export fires. -/
def periodicSaveRun (flag : Nat → Bool) : Nat → Nat → List Nat
  | 0, _ => []
  | fuel + 1, t =>
    if flag t then
      let t2 := sleepLoop flag 1800 t
      (if flag t2 then [t2] else []) ++ periodicSaveRun flag fuel t2
    else []

/-- A timeline on which monitoring starts one second after process
start and then runs indefinitely. -/
def lateStartFlag : Nat → Bool := fun t => decide (1 ≤ t)

/-- C8: the `periodicSave` thread observes the running flag false at
process start (before monitoring is started) and exits permanently, so a
subsequent Running period of arbitrary length — here true from tick 1
past tick 4000, well over 30 minutes — receives no automatic export. -/
theorem periodic_export_misses_running_period :
    periodicSaveRun lateStartFlag 5 0 = [] ∧
    lateStartFlag 0 = false ∧ lateStartFlag 1 = true ∧
    lateStartFlag 4000 = true := by
  refine ⟨rfl, rfl, rfl, rfl⟩

end PrintMonitor
